import Mathlib

/-!
Shallow embedding of the gpmcp/registry-testkit core: the storage
abstraction with its memory and disk backends (src/storage.rs), the error
type (src/error.rs), and the HTTP protocol handlers (src/server.rs).

Bytes are modelled as `List Nat` (each entry a byte value), machine 32-bit
words in SHA-256 as `Nat` reduced modulo 2^32, fallible operations as
`Except RegistryError`.  Handlers from server.rs are generic over a
`Storage` record, mirroring the `dyn Storage` trait object; the two
backends instantiate it.  Nondeterministic inputs of the real code (the
random v4 uuid of start-upload) become explicit parameters.
-/

/-- Reduce a natural number to a 32-bit machine word, as the `Wrapping`
semantics of the `u32` arithmetic used by the sha2 crate. -/
def w32 (x : Nat) : Nat := x % 4294967296

/-- 32-bit right rotation. -/
def rotr32 (n x : Nat) : Nat := w32 ((x >>> n) ||| (x <<< (32 - n)))

/-- SHA-256 small sigma 0. -/
def smallSigma0 (x : Nat) : Nat := (rotr32 7 x) ^^^ (rotr32 18 x) ^^^ (x >>> 3)

/-- SHA-256 small sigma 1. -/
def smallSigma1 (x : Nat) : Nat := (rotr32 17 x) ^^^ (rotr32 19 x) ^^^ (x >>> 10)

/-- SHA-256 big sigma 0. -/
def bigSigma0 (x : Nat) : Nat := (rotr32 2 x) ^^^ (rotr32 13 x) ^^^ (rotr32 22 x)

/-- SHA-256 big sigma 1. -/
def bigSigma1 (x : Nat) : Nat := (rotr32 6 x) ^^^ (rotr32 11 x) ^^^ (rotr32 25 x)

/-- SHA-256 choice function. -/
def sha256Ch (e f g : Nat) : Nat := (e &&& f) ^^^ ((e ^^^ 0xffffffff) &&& g)

/-- SHA-256 majority function. -/
def sha256Maj (a b c : Nat) : Nat := (a &&& b) ^^^ (a &&& c) ^^^ (b &&& c)

/-- The 64 SHA-256 round constants. -/
def sha256K : List Nat :=
  [1116352408, 1899447441, 3049323471, 3921009573, 961987163, 1508970993,
   2453635748, 2870763221, 3624381080, 310598401, 607225278, 1426881987,
   1925078388, 2162078206, 2614888103, 3248222580, 3835390401, 4022224774,
   264347078, 604807628, 770255983, 1249150122, 1555081692, 1996064986,
   2554220882, 2821834349, 2952996808, 3210313671, 3336571891, 3584528711,
   113926993, 338241895, 666307205, 773529912, 1294757372, 1396182291,
   1695183700, 1986661051, 2177026350, 2456956037, 2730485921, 2820302411,
   3259730800, 3345764771, 3516065817, 3600352804, 4094571909, 275423344,
   430227734, 506948616, 659060556, 883997877, 958139571, 1322822218,
   1537002063, 1747873779, 1955562222, 2024104815, 2227730452, 2361852424,
   2428436474, 2756734187, 3204031479, 3329325298]

/-- The SHA-256 initial hash state. -/
def sha256H0 : List Nat :=
  [1779033703, 3144134277, 1013904242, 2773480762,
   1359893119, 2600822924, 528734635, 1541459225]

/-- Big-endian byte decomposition of a natural number into n bytes. -/
def beBytes (n : Nat) (x : Nat) : List Nat :=
  match n with
  | 0 => []
  | k + 1 => beBytes k (x / 256) ++ [x % 256]

/-- Group a byte list into big-endian 32-bit words. -/
def toWords : List Nat → List Nat
  | a :: b :: c :: d :: rest => (a * 16777216 + b * 65536 + c * 256 + d) :: toWords rest
  | _ => []

/-- SHA-256 message padding: append 0x80, zero bytes to 56 mod 64, and the
bit length as a 64-bit big-endian integer. -/
def sha256Pad (msg : List Nat) : List Nat :=
  msg ++ [0x80] ++ List.replicate ((119 - msg.length % 64) % 64) 0 ++ beBytes 8 (msg.length * 8)

/-- Extend a 16-word block schedule by n further words. -/
def extendSchedule (ws : List Nat) : Nat → List Nat
  | 0 => ws
  | n + 1 =>
    let w := extendSchedule ws n
    w ++ [w32 (smallSigma1 (w.getD (w.length - 2) 0) + w.getD (w.length - 7) 0 +
               smallSigma0 (w.getD (w.length - 15) 0) + w.getD (w.length - 16) 0)]

/-- One SHA-256 compression round on an 8-word state, taking the round
constant paired with the schedule word. -/
def compressRound (st : List Nat) (kw : Nat × Nat) : List Nat :=
  match st with
  | [a, b, c, d, e, f, g, h] =>
    let t1 := w32 (h + bigSigma1 e + sha256Ch e f g + kw.1 + kw.2)
    let t2 := w32 (bigSigma0 a + sha256Maj a b c)
    [w32 (t1 + t2), a, b, c, w32 (d + t1), e, f, g]
  | other => other

/-- Compress one 16-word block into the running hash state. -/
def compressBlock (h : List Nat) (block : List Nat) : List Nat :=
  let ws := extendSchedule block 48
  let st := (sha256K.zip ws).foldl compressRound h
  (h.zip st).map (fun p => w32 (p.1 + p.2))

/-- SHA-256 of a byte list, as the 32-byte digest. -/
def sha256 (msg : List Nat) : List Nat :=
  let ws := toWords (sha256Pad msg)
  let blocks := (List.range (ws.length / 16)).map (fun i => (ws.drop (16 * i)).take 16)
  let hf := blocks.foldl compressBlock sha256H0
  hf.foldr (fun w acc => beBytes 4 w ++ acc) []

/-- One lowercase hexadecimal digit. -/
def hexDigit (n : Nat) : Char := if n < 10 then Char.ofNat (48 + n) else Char.ofNat (87 + n)

/-- Lowercase hexadecimal encoding of a byte list, as hex::encode. -/
def hexEncode (bytes : List Nat) : String :=
  String.mk (bytes.foldr (fun b acc => hexDigit (b / 16) :: hexDigit (b % 16) :: acc) [])

/-- The algorithm-prefixed hex digest string computed by the handlers in
server.rs: sha256 of the bytes, hex-encoded and prefixed with the name. -/
def sha256Digest (data : List Nat) : String := "sha256:" ++ hexEncode (sha256 data)

/-! ## Error type (src/error.rs) -/

/-- RegistryError from error.rs: an I/O failure wrapping the underlying
cause, or upload-not-found keyed by the session id. -/
inductive RegistryError where
  | ioErr : RegistryError
  | uploadNotFound : String → RegistryError
deriving DecidableEq

/-! ## Association-list maps

The memory backend's `HashMap` and the disk backend's directory of files
are both modelled as association lists from `String` keys, with
insert-replacing write, first-match lookup and key removal. -/

/-- Remove every binding of key k. -/
def listRemove {α : Type} (m : List (String × α)) (k : String) : List (String × α) :=
  m.filter (fun p => p.1 ≠ k)

/-- Insert, replacing any existing binding of k (HashMap::insert,
fs::write semantics). -/
def listInsert {α : Type} (m : List (String × α)) (k : String) (v : α) : List (String × α) :=
  (k, v) :: listRemove m k

/-- First-match lookup (HashMap::get, file existence/read). -/
def listLookup {α : Type} (m : List (String × α)) (k : String) : Option α :=
  match m with
  | [] => none
  | (a, b) :: rest => if a = k then some b else listLookup rest k

/-! ## Data model (src/storage.rs) -/

/-- ManifestEntry from storage.rs: content bytes plus content-type. -/
structure ManifestEntry where
  data : List Nat
  content_type : String
deriving DecidableEq

/-- MemoryStorage from storage.rs: three independent maps for manifests,
blobs, and in-flight uploads. -/
structure MemoryStorage where
  manifests : List (String × ManifestEntry)
  blobs : List (String × List Nat)
  uploads : List (String × List Nat)
deriving DecidableEq

/-- The empty memory storage (MemoryStorage::new). -/
def MemoryStorage.new : MemoryStorage := ⟨[], [], []⟩

def MemoryStorage.store_manifest (s : MemoryStorage) (key : String) (entry : ManifestEntry) :
    Except RegistryError MemoryStorage :=
  .ok { s with manifests := listInsert s.manifests key entry }

def MemoryStorage.get_manifest (s : MemoryStorage) (key : String) :
    Except RegistryError (Option ManifestEntry) :=
  .ok (listLookup s.manifests key)

def MemoryStorage.store_blob (s : MemoryStorage) (digest : String) (data : List Nat) :
    Except RegistryError MemoryStorage :=
  .ok { s with blobs := listInsert s.blobs digest data }

def MemoryStorage.get_blob (s : MemoryStorage) (digest : String) :
    Except RegistryError (Option (List Nat)) :=
  .ok (listLookup s.blobs digest)

def MemoryStorage.create_upload (s : MemoryStorage) (uuid : String) :
    Except RegistryError MemoryStorage :=
  .ok { s with uploads := listInsert s.uploads uuid [] }

def MemoryStorage.append_upload (s : MemoryStorage) (uuid : String) (data : List Nat) :
    Except RegistryError MemoryStorage :=
  match listLookup s.uploads uuid with
  | some upload => .ok { s with uploads := listInsert s.uploads uuid (upload ++ data) }
  | none => .error (.uploadNotFound uuid)

def MemoryStorage.finish_upload (s : MemoryStorage) (uuid : String) :
    Except RegistryError (MemoryStorage × Option (List Nat)) :=
  .ok ({ s with uploads := listRemove s.uploads uuid }, listLookup s.uploads uuid)

/-! ## Disk backend (src/storage.rs, DiskStorage)

The filesystem is a map from paths to file contents (byte lists); the
sidecar content-type file stores the string through a byte encoding. -/

/-- Encode a string's characters as bytes for a file write. -/
def strToBytes (s : String) : List Nat := s.toList.map Char.toNat

/-- Decode file bytes back to a string (fs::read_to_string). -/
def bytesToStr (l : List Nat) : String := String.mk (l.map Char.ofNat)

/-- Replace the path-unsafe characters and colon with an underscore, as
key.replace in storage.rs. -/
def sanitizeKey (s : String) : String :=
  String.map (fun c => if c = '/' ∨ c = ':' then '_' else c) s

/-- DiskStorage: a base path plus the (modelled) filesystem contents. -/
structure DiskStorage where
  base_path : String
  fs : List (String × List Nat)
deriving DecidableEq

def DiskStorage.manifest_path (t : DiskStorage) (key : String) : String :=
  t.base_path ++ "/manifests/" ++ sanitizeKey key ++ ".json"

def DiskStorage.manifest_meta_path (t : DiskStorage) (key : String) : String :=
  t.base_path ++ "/manifests/" ++ sanitizeKey key ++ ".meta"

def DiskStorage.blob_path (t : DiskStorage) (digest : String) : String :=
  t.base_path ++ "/blobs/" ++ sanitizeKey digest

def DiskStorage.upload_path (t : DiskStorage) (uuid : String) : String :=
  t.base_path ++ "/uploads/" ++ uuid

/-- The default manifest media type used when the sidecar is absent. -/
def defaultManifestType : String := "application/vnd.docker.distribution.manifest.v2+json"

def DiskStorage.store_manifest (t : DiskStorage) (key : String) (entry : ManifestEntry) :
    Except RegistryError DiskStorage :=
  .ok { t with fs := listInsert (listInsert t.fs (t.manifest_path key) entry.data)
                       (t.manifest_meta_path key) (strToBytes entry.content_type) }

def DiskStorage.get_manifest (t : DiskStorage) (key : String) :
    Except RegistryError (Option ManifestEntry) :=
  match listLookup t.fs (t.manifest_path key) with
  | none => .ok none
  | some data =>
    let content_type :=
      match listLookup t.fs (t.manifest_meta_path key) with
      | some bs => bytesToStr bs
      | none => defaultManifestType
    .ok (some ⟨data, content_type⟩)

def DiskStorage.store_blob (t : DiskStorage) (digest : String) (data : List Nat) :
    Except RegistryError DiskStorage :=
  .ok { t with fs := listInsert t.fs (t.blob_path digest) data }

def DiskStorage.get_blob (t : DiskStorage) (digest : String) :
    Except RegistryError (Option (List Nat)) :=
  match listLookup t.fs (t.blob_path digest) with
  | none => .ok none
  | some data => .ok (some data)

def DiskStorage.create_upload (t : DiskStorage) (uuid : String) :
    Except RegistryError DiskStorage :=
  .ok { t with fs := listInsert t.fs (t.upload_path uuid) [] }

def DiskStorage.append_upload (t : DiskStorage) (uuid : String) (data : List Nat) :
    Except RegistryError DiskStorage :=
  match listLookup t.fs (t.upload_path uuid) with
  | none => .error (.uploadNotFound uuid)
  | some existing => .ok { t with fs := listInsert t.fs (t.upload_path uuid) (existing ++ data) }

def DiskStorage.finish_upload (t : DiskStorage) (uuid : String) :
    Except RegistryError (DiskStorage × Option (List Nat)) :=
  match listLookup t.fs (t.upload_path uuid) with
  | none => .ok (t, none)
  | some data => .ok ({ t with fs := listRemove t.fs (t.upload_path uuid) }, some data)

/-! ## The Storage trait (src/storage.rs)

A record of operations over a state type, mirroring `dyn Storage`; the
handlers are generic over it.  Mutating operations return the new state;
an `Except.error` result carries no state, modelling a failed call that
the handlers observe only as `Err`. -/

structure Storage (σ : Type) where
  store_manifest : σ → String → ManifestEntry → Except RegistryError σ
  get_manifest : σ → String → Except RegistryError (Option ManifestEntry)
  store_blob : σ → String → List Nat → Except RegistryError σ
  get_blob : σ → String → Except RegistryError (Option (List Nat))
  create_upload : σ → String → Except RegistryError σ
  append_upload : σ → String → List Nat → Except RegistryError σ
  finish_upload : σ → String → Except RegistryError (σ × Option (List Nat))

/-- The memory backend as a Storage instance. -/
def memoryStorage : Storage MemoryStorage :=
  ⟨MemoryStorage.store_manifest, MemoryStorage.get_manifest, MemoryStorage.store_blob,
   MemoryStorage.get_blob, MemoryStorage.create_upload, MemoryStorage.append_upload,
   MemoryStorage.finish_upload⟩

/-- The disk backend as a Storage instance. -/
def diskStorage : Storage DiskStorage :=
  ⟨DiskStorage.store_manifest, DiskStorage.get_manifest, DiskStorage.store_blob,
   DiskStorage.get_blob, DiskStorage.create_upload, DiskStorage.append_upload,
   DiskStorage.finish_upload⟩

/-! ## Protocol handlers (src/server.rs)

Requests carry the matched path parameters, the parsed query, the header
map and the body.  Headers are an association list looked up
case-insensitively, as axum's HeaderMap.  Responses are tuples of the
status code and the header/body values the handler sets. -/

/-- strip_leading_slash from server.rs. -/
def strip_leading_slash (s : String) : String :=
  match s.toList with
  | '/' :: rest => String.mk rest
  | _ => s

/-- Lowercase a string, for case-insensitive header names. -/
def lowerStr (s : String) : String := String.map Char.toLower s

/-- Case-insensitive header lookup, as HeaderMap::get. -/
def headerGet (headers : List (String × String)) (name : String) : Option String :=
  (headers.find? (fun p => lowerStr p.1 = lowerStr name)).map (fun p => p.2)

/-- check_blob (HEAD blob): status and Content-Length header. -/
def check_blob_handler {σ : Type} (S : Storage σ) (s : σ) (name digest : String) :
    Nat × String :=
  let _ := strip_leading_slash name
  match S.get_blob s digest with
  | .ok (some blob) => (200, toString blob.length)
  | _ => (404, "0")

/-- get_blob (GET blob): status and body. -/
def get_blob_handler {σ : Type} (S : Storage σ) (s : σ) (name digest : String) :
    Nat × List Nat :=
  let _ := strip_leading_slash name
  match S.get_blob s digest with
  | .ok (some blob) => (200, blob)
  | _ => (404, [])

/-- start_upload (POST): the fresh uuid is a parameter; returns the new
state, status and Location header. -/
def start_upload_handler {σ : Type} (S : Storage σ) (s : σ) (name uuid : String) :
    σ × Nat × String :=
  let name := strip_leading_slash name
  match S.create_upload s uuid with
  | .ok s1 => (s1, 202, "/v2/" ++ name ++ "/blobs/uploads/" ++ uuid)
  | .error _ => (s, 500, "")

/-- upload_chunk (PATCH): returns the new state, status, Location, Range
and Docker-Upload-UUID headers. -/
def upload_chunk_handler {σ : Type} (S : Storage σ) (s : σ) (name uuid : String)
    (body : List Nat) : σ × Nat × String × String × String :=
  let name := strip_leading_slash name
  match S.append_upload s uuid body with
  | .ok s1 =>
    (s1, 202, "/v2/" ++ name ++ "/blobs/uploads/" ++ uuid,
     "0-" ++ toString (body.length - 1), uuid)
  | .error _ => (s, 404, "", "", "")

/-- The digest resolution of finish_upload: query parameter, then digest
header, then Docker-Content-Digest header, else computed SHA-256. -/
def resolveDigest (digestParam : Option String) (headers : List (String × String))
    (data : List Nat) : String :=
  ((digestParam.orElse (fun _ =>
      (headerGet headers "digest").orElse (fun _ =>
        headerGet headers "Docker-Content-Digest"))).getD (sha256Digest data))

/-- finish_upload (PUT): returns the new state, status, Location and
Docker-Content-Digest headers. -/
def finish_upload_handler {σ : Type} (S : Storage σ) (s : σ) (name uuid : String)
    (digestParam : Option String) (headers : List (String × String)) (body : List Nat) :
    σ × Nat × String × String :=
  let name := strip_leading_slash name
  match S.finish_upload s uuid with
  | .ok (s1, some data0) =>
    let upload_data := data0 ++ body
    let digest_str := resolveDigest digestParam headers upload_data
    match S.store_blob s1 digest_str upload_data with
    | .ok s2 => (s2, 201, "/v2/" ++ name ++ "/blobs/" ++ digest_str, digest_str)
    | .error _ => (s1, 500, "", "")
  | .ok (s1, none) => (s1, 404, "", "")
  | .error _ => (s, 404, "", "")

/-- put_manifest (PUT): returns the new state, status, Location,
Content-Type and Docker-Content-Digest headers. -/
def put_manifest_handler {σ : Type} (S : Storage σ) (s : σ) (name reference : String)
    (headers : List (String × String)) (body : List Nat) :
    σ × Nat × String × String × String :=
  let name := strip_leading_slash name
  let content_type := (headerGet headers "content-type").getD defaultManifestType
  let digest := sha256Digest body
  let entry : ManifestEntry := ⟨body, content_type⟩
  let key := name ++ ":" ++ reference
  let digest_key := name ++ ":" ++ digest
  match S.store_manifest s key entry with
  | .error _ => (s, 500, "", "", "")
  | .ok s1 =>
    match S.store_manifest s1 digest_key entry with
    | .ok s2 => (s2, 201, "/v2/" ++ name ++ "/manifests/" ++ reference, content_type, digest)
    | .error _ => (s1, 201, "/v2/" ++ name ++ "/manifests/" ++ reference, content_type, digest)

/-- get_manifest (GET): status, Content-Type header and body. -/
def get_manifest_handler {σ : Type} (S : Storage σ) (s : σ) (name reference : String) :
    Nat × String × List Nat :=
  let name := strip_leading_slash name
  let key := name ++ ":" ++ reference
  match S.get_manifest s key with
  | .ok (some entry) => (200, entry.content_type, entry.data)
  | _ => (404, "text/plain", [])

/-- check_manifest (HEAD): status, Content-Type and Docker-Content-Digest
headers; the digest is recomputed from the stored bytes. -/
def check_manifest_handler {σ : Type} (S : Storage σ) (s : σ) (name reference : String) :
    Nat × String × String :=
  let name := strip_leading_slash name
  let key := name ++ ":" ++ reference
  match S.get_manifest s key with
  | .ok (some entry) => (200, entry.content_type, sha256Digest entry.data)
  | _ => (404, "text/plain", "")


/-! ## Map lemmas -/

theorem listLookup_listInsert_self {α : Type} (m : List (String × α)) (k : String) (v : α) :
    listLookup (listInsert m k v) k = some v := by
  simp [listInsert, listLookup]

theorem listLookup_listRemove_self {α : Type} (m : List (String × α)) (k : String) :
    listLookup (listRemove m k) k = none := by
  induction m with
  | nil => rfl
  | cons p rest ih =>
    obtain ⟨a, b⟩ := p
    by_cases h : a = k
    · simpa [listRemove, List.filter_cons, h] using ih
    · simpa [listRemove, List.filter_cons, h, listLookup] using ih

theorem listLookup_listRemove_ne {α : Type} (m : List (String × α)) (k k' : String)
    (h : k' ≠ k) : listLookup (listRemove m k) k' = listLookup m k' := by
  induction m with
  | nil => rfl
  | cons p rest ih =>
    obtain ⟨a, b⟩ := p
    by_cases ha : a = k
    · have hk' : k ≠ k' := fun e => h e.symm
      simpa [listRemove, List.filter_cons, ha, listLookup, hk'] using ih
    · by_cases hk : a = k'
      · simp [listRemove, List.filter_cons, ha, listLookup, hk, h]
      · simpa [listRemove, List.filter_cons, ha, listLookup, hk] using ih

theorem listLookup_listInsert_ne {α : Type} (m : List (String × α)) (k k' : String) (v : α)
    (h : k' ≠ k) : listLookup (listInsert m k v) k' = listLookup m k' := by
  have : k ≠ k' := fun e => h e.symm
  simp [listInsert, listLookup, this, listLookup_listRemove_ne m k k' h]

theorem listRemove_eq_of_lookup_none {α : Type} (m : List (String × α)) (k : String)
    (h : listLookup m k = none) : listRemove m k = m := by
  induction m with
  | nil => rfl
  | cons p rest ih =>
    obtain ⟨a, b⟩ := p
    by_cases ha : a = k
    · simp [listLookup, ha] at h
    · rw [listLookup, if_neg ha] at h
      calc listRemove ((a, b) :: rest) k = (a, b) :: listRemove rest k := by
            simp [listRemove, List.filter_cons, ha]
        _ = (a, b) :: rest := by rw [ih h]

/-! ## Claim theorems -/

/-- Claim C7: for all digests d and byte sequences B and B', store_blob
followed by get_blob returns B unchanged (round-trip); repeating
store_blob with the same digest and bytes leaves get_blob unchanged
(idempotent overwrite); and store_blob with different bytes B' after B
makes get_blob return B' (last write wins, never append) — in both the
memory and the disk backend. -/
theorem c7_store_blob_algebra (d : String) (B B' : List Nat) (s : MemoryStorage)
    (t : DiskStorage) :
    ((MemoryStorage.store_blob s d B).bind (fun s1 => MemoryStorage.get_blob s1 d)
        = .ok (some B)
      ∧ (MemoryStorage.store_blob s d B).bind (fun s1 =>
          (MemoryStorage.store_blob s1 d B).bind (fun s2 => MemoryStorage.get_blob s2 d))
        = .ok (some B)
      ∧ (MemoryStorage.store_blob s d B).bind (fun s1 =>
          (MemoryStorage.store_blob s1 d B').bind (fun s2 => MemoryStorage.get_blob s2 d))
        = .ok (some B'))
    ∧ ((DiskStorage.store_blob t d B).bind (fun t1 => DiskStorage.get_blob t1 d)
        = .ok (some B)
      ∧ (DiskStorage.store_blob t d B).bind (fun t1 =>
          (DiskStorage.store_blob t1 d B).bind (fun t2 => DiskStorage.get_blob t2 d))
        = .ok (some B)
      ∧ (DiskStorage.store_blob t d B).bind (fun t1 =>
          (DiskStorage.store_blob t1 d B').bind (fun t2 => DiskStorage.get_blob t2 d))
        = .ok (some B')) := by
  refine ⟨⟨?_, ?_, ?_⟩, ⟨?_, ?_, ?_⟩⟩ <;>
    simp [MemoryStorage.store_blob, MemoryStorage.get_blob, DiskStorage.store_blob,
      DiskStorage.get_blob, DiskStorage.blob_path, Except.bind, listInsert,
      listLookup, listRemove]

/-- Claim C8 counterexample: on an identifier with no session, finish_upload
in both backends returns Ok(None) — a successful result carrying no data —
and not an error, refuting the claim that finish_upload on an unknown
identifier is an error. -/
theorem c8_unknown_upload_counterexample :
    MemoryStorage.finish_upload MemoryStorage.new "missing" = .ok (MemoryStorage.new, none)
    ∧ ¬(∃ e, MemoryStorage.finish_upload MemoryStorage.new "missing" = .error e)
    ∧ DiskStorage.finish_upload ⟨"/reg", []⟩ "missing" = .ok (⟨"/reg", []⟩, none)
    ∧ ¬(∃ e, DiskStorage.finish_upload ⟨"/reg", []⟩ "missing" = .error e) := by
  refine ⟨rfl, ?_, rfl, ?_⟩
  · rintro ⟨e, he⟩
    exact Except.noConfusion he
  · rintro ⟨e, he⟩
    exact Except.noConfusion he

/-- Claim C8 (amended): for every upload identifier with no session,
append_upload fails with an upload-not-found error in both backends, and
finish_upload returns Ok with no data — it signals the missing session to
the caller (never acts as a silent successful consumption), though as a
not-found result rather than an error value. -/
theorem c8_unknown_upload_amended (s : MemoryStorage) (t : DiskStorage) (u : String)
    (data : List Nat) (hm : listLookup s.uploads u = none)
    (hd : listLookup t.fs (t.upload_path u) = none) :
    MemoryStorage.append_upload s u data = .error (.uploadNotFound u)
    ∧ MemoryStorage.finish_upload s u = .ok (s, none)
    ∧ DiskStorage.append_upload t u data = .error (.uploadNotFound u)
    ∧ DiskStorage.finish_upload t u = .ok (t, none) := by
  refine ⟨?_, ?_, ?_, ?_⟩
  · simp [MemoryStorage.append_upload, hm]
  · simp [MemoryStorage.finish_upload, hm, listRemove_eq_of_lookup_none s.uploads u hm]
  · simp [DiskStorage.append_upload, hd]
  · simp [DiskStorage.finish_upload, hd]

/-- Witness for C8 (amended) at the empty storages and identifier "u". -/
theorem c8_unknown_upload_witness :
    (listLookup MemoryStorage.new.uploads "u" = none
      ∧ listLookup (DiskStorage.mk "" []).fs ((DiskStorage.mk "" []).upload_path "u") = none)
    ∧ (MemoryStorage.append_upload MemoryStorage.new "u" [1] = .error (.uploadNotFound "u")
      ∧ MemoryStorage.finish_upload MemoryStorage.new "u" = .ok (MemoryStorage.new, none)
      ∧ DiskStorage.append_upload (DiskStorage.mk "" []) "u" [1] = .error (.uploadNotFound "u")
      ∧ DiskStorage.finish_upload (DiskStorage.mk "" []) "u" = .ok (DiskStorage.mk "" [], none)) :=
  ⟨⟨rfl, rfl⟩, c8_unknown_upload_amended MemoryStorage.new (DiskStorage.mk "" []) "u" [1] rfl rfl⟩

/-- Claim C10: finish-upload on an upload id with no existing session
returns not-found with empty headers, stores no blob, leaves the whole
storage state (blob and manifest stores included) unchanged, and its
result does not depend on the trailing request body — the right-hand side
mentions neither the body nor any store. -/
theorem c10_finish_missing_session (s : MemoryStorage) (name u : String)
    (dp : Option String) (hs : List (String × String)) (body : List Nat)
    (h : listLookup s.uploads u = none) :
    finish_upload_handler memoryStorage s name u dp hs body = (s, 404, "", "") := by
  have hrem := listRemove_eq_of_lookup_none s.uploads u h
  simp [finish_upload_handler, memoryStorage, MemoryStorage.finish_upload, h, hrem]

/-- Witness for C10 at the empty storage and session id "u". -/
theorem c10_finish_missing_witness :
    listLookup MemoryStorage.new.uploads "u" = none
    ∧ finish_upload_handler memoryStorage MemoryStorage.new "r" "u" none [] [7]
        = (MemoryStorage.new, 404, "", "") :=
  ⟨rfl, c10_finish_missing_session MemoryStorage.new "r" "u" none [] [7] rfl⟩

/-- A storage stub whose every operation fails with an I/O error; a legal
implementor of the Storage trait, standing for a backend whose underlying
medium fails (as DiskStorage does when a filesystem read or write
fails). -/
def ioFailStorage : Storage Unit :=
  ⟨fun _ _ _ => .error .ioErr, fun _ _ => .error .ioErr, fun _ _ _ => .error .ioErr,
   fun _ _ => .error .ioErr, fun _ _ => .error .ioErr, fun _ _ _ => .error .ioErr,
   fun _ _ => .error .ioErr⟩

/-- A storage stub on which reading an upload session succeeds with data
but storing the assembled blob fails with an I/O error. -/
def storeFailStorage : Storage Unit :=
  ⟨fun _ _ _ => .error .ioErr, fun _ _ => .error .ioErr, fun _ _ _ => .error .ioErr,
   fun _ _ => .error .ioErr, fun _ _ => .error .ioErr, fun _ _ _ => .error .ioErr,
   fun _ _ => .ok ((), some [1])⟩

/-- Claim C3 counterexample: in check_blob a storage I/O failure is
answered with 404, not with the server-error status 500 the claim
prescribes for every handler on an I/O error. -/
theorem c3_io_error_counterexample :
    ioFailStorage.get_blob () "sha256:d" = .error .ioErr
    ∧ check_blob_handler ioFailStorage () "repo" "sha256:d" = (404, "0")
    ∧ (check_blob_handler ioFailStorage () "repo" "sha256:d").1 ≠ 500 :=
  ⟨rfl, rfl, by decide⟩

/-- Claim C3 (amended): in finish-upload, 'no such session' maps to 404
with emptied headers and a failed blob store write maps to 500 with
emptied headers; upload-not-found from append maps to 404 in
upload_chunk; but read-path storage failures are folded into not-found:
an I/O error from get_blob gives 404 in check_blob, and an I/O error
reading the session gives 404 in finish-upload. -/
theorem c3_error_mapping {σ1 σ2 σ3 σ4 σ5 : Type}
    (S1 : Storage σ1) (S2 : Storage σ2) (S3 : Storage σ3) (S4 : Storage σ4) (S5 : Storage σ5)
    (t1 : σ1) (t1' : σ1) (t2 : σ2) (t2' : σ2) (t3 : σ3) (t4 : σ4) (t5 : σ5)
    (n1 u1 n2 u2 n3 u3 n4 d4 n5 u5 : String)
    (dp1 dp2 : Option String) (hs1 hs2 : List (String × String))
    (b1 b2 b5 : List Nat) (data : List Nat) (e2 e3 e4 : RegistryError)
    (h1 : S1.finish_upload t1 u1 = .ok (t1', none))
    (h2a : S2.finish_upload t2 u2 = .ok (t2', some data))
    (h2b : S2.store_blob t2' (resolveDigest dp2 hs2 (data ++ b2)) (data ++ b2) = .error e2)
    (h3 : S3.finish_upload t3 u3 = .error e3)
    (h4 : S4.get_blob t4 d4 = .error e4)
    (h5 : S5.append_upload t5 u5 b5 = .error (.uploadNotFound u5)) :
    finish_upload_handler S1 t1 n1 u1 dp1 hs1 b1 = (t1', 404, "", "")
    ∧ finish_upload_handler S2 t2 n2 u2 dp2 hs2 b2 = (t2', 500, "", "")
    ∧ finish_upload_handler S3 t3 n3 u3 dp2 hs2 b2 = (t3, 404, "", "")
    ∧ check_blob_handler S4 t4 n4 d4 = (404, "0")
    ∧ upload_chunk_handler S5 t5 n5 u5 b5 = (t5, 404, "", "", "") := by
  refine ⟨?_, ?_, ?_, ?_, ?_⟩
  · simp [finish_upload_handler, h1]
  · simp [finish_upload_handler, h2a, h2b]
  · simp [finish_upload_handler, h3]
  · simp [check_blob_handler, h4]
  · simp [upload_chunk_handler, h5]

/-- Witness for C3 (amended): the five hypotheses hold at concrete
storages and inputs, and the five response equations follow. -/
theorem c3_error_mapping_witness :
    (memoryStorage.finish_upload MemoryStorage.new "u" = .ok (MemoryStorage.new, none)
      ∧ storeFailStorage.finish_upload () "u" = .ok ((), some [1])
      ∧ storeFailStorage.store_blob () (resolveDigest (some "sha256:x") [] ([1] ++ [2])) ([1] ++ [2])
          = .error .ioErr
      ∧ ioFailStorage.finish_upload () "u" = .error .ioErr
      ∧ ioFailStorage.get_blob () "sha256:d" = .error .ioErr
      ∧ memoryStorage.append_upload MemoryStorage.new "u" [9] = .error (.uploadNotFound "u"))
    ∧ (finish_upload_handler memoryStorage MemoryStorage.new "r" "u" none [] []
          = (MemoryStorage.new, 404, "", "")
      ∧ finish_upload_handler storeFailStorage () "r" "u" (some "sha256:x") [] [2]
          = ((), 500, "", "")
      ∧ finish_upload_handler ioFailStorage () "r" "u" (some "sha256:x") [] [2]
          = ((), 404, "", "")
      ∧ check_blob_handler ioFailStorage () "r" "sha256:d" = (404, "0")
      ∧ upload_chunk_handler memoryStorage MemoryStorage.new "r" "u" [9]
          = (MemoryStorage.new, 404, "", "", "")) :=
  ⟨⟨rfl, rfl, rfl, rfl, rfl, rfl⟩,
    c3_error_mapping memoryStorage storeFailStorage ioFailStorage ioFailStorage memoryStorage
      MemoryStorage.new MemoryStorage.new () () () () MemoryStorage.new
      "r" "u" "r" "u" "r" "u" "r" "sha256:d" "r" "u"
      none (some "sha256:x") [] [] [] [2] [9] [1] .ioErr .ioErr .ioErr
      rfl rfl rfl rfl rfl rfl⟩

/-- Claim C4: in put_manifest, a failure of the first store (under
repository:reference) yields a server error 500 with Location,
Content-Type and Docker-Content-Digest all empty and the state returned
unchanged — the second store is never reached in that branch, which the
pure model expresses by the result being exactly the untouched input
state; if the first store succeeds, the response is 201 with populated
headers regardless of the second store's outcome. -/
theorem c4_put_manifest_store_failure {σ1 σ2 : Type} (S1 : Storage σ1) (S2 : Storage σ2)
    (t1 : σ1) (t2 : σ2) (t2a : σ2) (n1 r1 n2 r2 : String)
    (hs1 hs2 : List (String × String)) (b1 b2 : List Nat) (e1 : RegistryError)
    (h1 : S1.store_manifest t1 (strip_leading_slash n1 ++ ":" ++ r1)
            ⟨b1, (headerGet hs1 "content-type").getD defaultManifestType⟩ = .error e1)
    (h2 : S2.store_manifest t2 (strip_leading_slash n2 ++ ":" ++ r2)
            ⟨b2, (headerGet hs2 "content-type").getD defaultManifestType⟩ = .ok t2a) :
    put_manifest_handler S1 t1 n1 r1 hs1 b1 = (t1, 500, "", "", "")
    ∧ (put_manifest_handler S2 t2 n2 r2 hs2 b2).2 =
        (201, "/v2/" ++ strip_leading_slash n2 ++ "/manifests/" ++ r2,
         (headerGet hs2 "content-type").getD defaultManifestType, sha256Digest b2) := by
  constructor
  · simp [put_manifest_handler, h1]
  · simp only [put_manifest_handler, h2]
    cases hsec : S2.store_manifest t2a
        (strip_leading_slash n2 ++ ":" ++ sha256Digest b2)
        ⟨b2, (headerGet hs2 "content-type").getD defaultManifestType⟩ <;>
      simp [hsec]

/-- Witness for C4: the first store fails on the always-failing storage,
succeeds on the memory backend; both response equations follow. -/
theorem c4_put_manifest_witness :
    (ioFailStorage.store_manifest () (strip_leading_slash "r" ++ ":" ++ "t")
        ⟨[1], (headerGet [] "content-type").getD defaultManifestType⟩ = .error .ioErr
      ∧ memoryStorage.store_manifest MemoryStorage.new (strip_leading_slash "r" ++ ":" ++ "t")
          ⟨[1], (headerGet [] "content-type").getD defaultManifestType⟩
        = .ok ⟨listInsert [] (strip_leading_slash "r" ++ ":" ++ "t")
                 ⟨[1], (headerGet [] "content-type").getD defaultManifestType⟩, [], []⟩)
    ∧ (put_manifest_handler ioFailStorage () "r" "t" [] [1] = ((), 500, "", "", "")
      ∧ (put_manifest_handler memoryStorage MemoryStorage.new "r" "t" [] [1]).2 =
          (201, "/v2/" ++ strip_leading_slash "r" ++ "/manifests/" ++ "t",
           (headerGet [] "content-type").getD defaultManifestType, sha256Digest [1])) :=
  ⟨⟨rfl, rfl⟩,
    c4_put_manifest_store_failure ioFailStorage memoryStorage () MemoryStorage.new
      ⟨listInsert [] (strip_leading_slash "r" ++ ":" ++ "t")
         ⟨[1], (headerGet [] "content-type").getD defaultManifestType⟩, [], []⟩
      "r" "t" "r" "t" [] [] [1] [1] .ioErr rfl rfl⟩

/-- Claim C6 counterexample: on a miss, check_manifest answers 404 with an
empty Docker-Content-Digest but with Content-Type "text/plain" — the
headers are not all empty. -/
theorem c6_check_manifest_counterexample :
    check_manifest_handler memoryStorage MemoryStorage.new "r" "t" = (404, "text/plain", "")
    ∧ ("text/plain" : String) ≠ "" :=
  ⟨rfl, by decide⟩

/-- Claim C6 (amended): check_manifest on a hit for repository:reference
returns 200 with the stored content-type and a Docker-Content-Digest that
is the SHA-256 digest of the bytes stored under that key at request time;
on a miss (whether the entry is absent or the storage read fails) it
returns 404 with an empty Docker-Content-Digest and Content-Type
"text/plain". -/
theorem c6_check_manifest_amended {σ1 σ2 σ3 : Type}
    (S1 : Storage σ1) (S2 : Storage σ2) (S3 : Storage σ3)
    (t1 : σ1) (t2 : σ2) (t3 : σ3) (n1 r1 n2 r2 n3 r3 : String)
    (entry : ManifestEntry) (e : RegistryError)
    (h1 : S1.get_manifest t1 (strip_leading_slash n1 ++ ":" ++ r1) = .ok (some entry))
    (h2 : S2.get_manifest t2 (strip_leading_slash n2 ++ ":" ++ r2) = .ok none)
    (h3 : S3.get_manifest t3 (strip_leading_slash n3 ++ ":" ++ r3) = .error e) :
    check_manifest_handler S1 t1 n1 r1 = (200, entry.content_type, sha256Digest entry.data)
    ∧ check_manifest_handler S2 t2 n2 r2 = (404, "text/plain", "")
    ∧ check_manifest_handler S3 t3 n3 r3 = (404, "text/plain", "") := by
  refine ⟨?_, ?_, ?_⟩
  · simp [check_manifest_handler, h1]
  · simp [check_manifest_handler, h2]
  · simp [check_manifest_handler, h3]

/-- Witness for C6 (amended) at a one-entry memory storage for the hit and
the empty storages for the misses. -/
theorem c6_check_manifest_witness :
    (memoryStorage.get_manifest
        ⟨[(strip_leading_slash "r" ++ ":" ++ "t", ⟨[1], "ct"⟩)], [], []⟩
        (strip_leading_slash "r" ++ ":" ++ "t") = .ok (some ⟨[1], "ct"⟩)
      ∧ memoryStorage.get_manifest MemoryStorage.new (strip_leading_slash "r" ++ ":" ++ "t")
          = .ok none
      ∧ ioFailStorage.get_manifest () (strip_leading_slash "r" ++ ":" ++ "t") = .error .ioErr)
    ∧ (check_manifest_handler memoryStorage
          ⟨[(strip_leading_slash "r" ++ ":" ++ "t", ⟨[1], "ct"⟩)], [], []⟩ "r" "t"
        = (200, ManifestEntry.content_type ⟨[1], "ct"⟩, sha256Digest (ManifestEntry.data ⟨[1], "ct"⟩))
      ∧ check_manifest_handler memoryStorage MemoryStorage.new "r" "t" = (404, "text/plain", "")
      ∧ check_manifest_handler ioFailStorage () "r" "t" = (404, "text/plain", "")) :=
  ⟨⟨by simp [memoryStorage, MemoryStorage.get_manifest, listLookup], rfl, rfl⟩,
    c6_check_manifest_amended memoryStorage memoryStorage ioFailStorage
      ⟨[(strip_leading_slash "r" ++ ":" ++ "t", ⟨[1], "ct"⟩)], [], []⟩ MemoryStorage.new ()
      "r" "t" "r" "t" "r" "t" ⟨[1], "ct"⟩ .ioErr
      (by simp [memoryStorage, MemoryStorage.get_manifest, listLookup]) rfl rfl⟩

/-- The orElse/getD chain of finish_upload's digest resolution, spelled as
the four-way precedence: query parameter, then digest header, then
Docker-Content-Digest header, then computed SHA-256. -/
theorem resolveDigest_cases (dp : Option String) (hs : List (String × String))
    (data : List Nat) :
    resolveDigest dp hs data =
      (match dp with
       | some d => d
       | none =>
         match headerGet hs "digest" with
         | some d => d
         | none =>
           match headerGet hs "Docker-Content-Digest" with
           | some d => d
           | none => sha256Digest data) := by
  cases dp with
  | some d => simp [resolveDigest, Option.orElse]
  | none =>
    cases hd : headerGet hs "digest" with
    | some d => simp [resolveDigest, Option.orElse, hd]
    | none =>
      cases hdc : headerGet hs "Docker-Content-Digest" with
      | some d => simp [resolveDigest, Option.orElse, hd, hdc]
      | none => simp [resolveDigest, Option.orElse, hd, hdc]

/-- Claim C2: finish-upload on an existing session resolves the digest in
the exact precedence order query parameter, digest header,
Docker-Content-Digest header, computed SHA-256 of the assembled bytes;
the assembled bytes are stored under that digest, the same digest is
returned in the Docker-Content-Digest position, and the response is
created (201). -/
theorem c2_digest_precedence (s : MemoryStorage) (name u : String) (dp : Option String)
    (hs : List (String × String)) (body data0 : List Nat)
    (h : listLookup s.uploads u = some data0) :
    (finish_upload_handler memoryStorage s name u dp hs body).2.1 = 201
    ∧ (finish_upload_handler memoryStorage s name u dp hs body).2.2.2 =
        (match dp with
         | some d => d
         | none =>
           match headerGet hs "digest" with
           | some d => d
           | none =>
             match headerGet hs "Docker-Content-Digest" with
             | some d => d
             | none => sha256Digest (data0 ++ body))
    ∧ MemoryStorage.get_blob (finish_upload_handler memoryStorage s name u dp hs body).1
        ((finish_upload_handler memoryStorage s name u dp hs body).2.2.2)
      = .ok (some (data0 ++ body)) := by
  have hred : finish_upload_handler memoryStorage s name u dp hs body =
      ({ s with uploads := listRemove s.uploads u,
                blobs := listInsert s.blobs (resolveDigest dp hs (data0 ++ body))
                           (data0 ++ body) },
       201, "/v2/" ++ strip_leading_slash name ++ "/blobs/"
              ++ resolveDigest dp hs (data0 ++ body),
       resolveDigest dp hs (data0 ++ body)) := by
    simp [finish_upload_handler, memoryStorage, MemoryStorage.finish_upload,
      MemoryStorage.store_blob, h]
  refine ⟨by rw [hred], ?_, ?_⟩
  · rw [hred]
    exact resolveDigest_cases dp hs (data0 ++ body)
  · rw [hred]
    simp [MemoryStorage.get_blob, listLookup_listInsert_self]

/-- Witness for C2 at a one-session storage with an explicit digest query
parameter. -/
theorem c2_digest_precedence_witness :
    listLookup (MemoryStorage.mk [] [] [("u", [1])]).uploads "u" = some [1]
    ∧ ((finish_upload_handler memoryStorage (MemoryStorage.mk [] [] [("u", [1])])
          "r" "u" (some "sha256:x") [] [2]).2.1 = 201
      ∧ (finish_upload_handler memoryStorage (MemoryStorage.mk [] [] [("u", [1])])
          "r" "u" (some "sha256:x") [] [2]).2.2.2 =
          (match (some "sha256:x" : Option String) with
           | some d => d
           | none =>
             match headerGet [] "digest" with
             | some d => d
             | none =>
               match headerGet [] "Docker-Content-Digest" with
               | some d => d
               | none => sha256Digest ([1] ++ [2]))
      ∧ MemoryStorage.get_blob (finish_upload_handler memoryStorage
            (MemoryStorage.mk [] [] [("u", [1])]) "r" "u" (some "sha256:x") [] [2]).1
          ((finish_upload_handler memoryStorage (MemoryStorage.mk [] [] [("u", [1])])
            "r" "u" (some "sha256:x") [] [2]).2.2.2)
        = .ok (some ([1] ++ [2]))) :=
  ⟨rfl, c2_digest_precedence (MemoryStorage.mk [] [] [("u", [1])]) "r" "u"
    (some "sha256:x") [] [2] [1] rfl⟩

/-- Claim C5: after put_manifest on the memory backend (where both stores
succeed), the entries under repository:reference and under
repository:computed-digest are the identical entry ⟨body, content-type⟩,
and the computed digest returned is the SHA-256 of the request body; and
no handler other than put_manifest changes the manifests map — the three
mutating handlers (start, chunk, finish of uploads) preserve it, and the
read handlers take the state immutably. -/
theorem c5_dual_key_invariant (s : MemoryStorage) (name reference : String)
    (hs : List (String × String)) (body : List Nat) :
    (listLookup (put_manifest_handler memoryStorage s name reference hs body).1.manifests
        (strip_leading_slash name ++ ":" ++ reference)
        = some ⟨body, (headerGet hs "content-type").getD defaultManifestType⟩
      ∧ listLookup (put_manifest_handler memoryStorage s name reference hs body).1.manifests
          (strip_leading_slash name ++ ":" ++ sha256Digest body)
        = some ⟨body, (headerGet hs "content-type").getD defaultManifestType⟩
      ∧ (put_manifest_handler memoryStorage s name reference hs body).2.2.2.2
        = sha256Digest body)
    ∧ (∀ (t : MemoryStorage) (n u : String),
        (start_upload_handler memoryStorage t n u).1.manifests = t.manifests)
    ∧ (∀ (t : MemoryStorage) (n u : String) (b : List Nat),
        (upload_chunk_handler memoryStorage t n u b).1.manifests = t.manifests)
    ∧ (∀ (t : MemoryStorage) (n u : String) (dp : Option String)
        (hd : List (String × String)) (b : List Nat),
        (finish_upload_handler memoryStorage t n u dp hd b).1.manifests = t.manifests) := by
  have hput : (put_manifest_handler memoryStorage s name reference hs body).1.manifests
      = listInsert
          (listInsert s.manifests (strip_leading_slash name ++ ":" ++ reference)
            ⟨body, (headerGet hs "content-type").getD defaultManifestType⟩)
          (strip_leading_slash name ++ ":" ++ sha256Digest body)
          ⟨body, (headerGet hs "content-type").getD defaultManifestType⟩ := by
    simp [put_manifest_handler, memoryStorage, MemoryStorage.store_manifest]
  refine ⟨⟨?_, ?_, ?_⟩, ?_, ?_, ?_⟩
  · rw [hput]
    by_cases hk : (strip_leading_slash name ++ ":" ++ reference)
        = (strip_leading_slash name ++ ":" ++ sha256Digest body)
    · rw [hk, listLookup_listInsert_self]
    · rw [listLookup_listInsert_ne _ _ _ _ hk, listLookup_listInsert_self]
  · rw [hput, listLookup_listInsert_self]
  · simp [put_manifest_handler, memoryStorage, MemoryStorage.store_manifest]
  · intro t n u
    simp [start_upload_handler, memoryStorage, MemoryStorage.create_upload]
  · intro t n u b
    cases hl : listLookup t.uploads u <;>
      simp [upload_chunk_handler, memoryStorage, MemoryStorage.append_upload, hl]
  · intro t n u dp hd b
    cases hl : listLookup t.uploads u <;>
      simp [finish_upload_handler, memoryStorage, MemoryStorage.finish_upload,
        MemoryStorage.store_blob, hl]

/-- Claim C9: after PUT manifest with body M and content-type T on the
memory backend (which succeeds with 201), GET on the same
repository:reference returns 200 with body M and content-type T, and HEAD
returns 200 with a Docker-Content-Digest equal to the SHA-256 of M
hex-encoded and prefixed sha256:. -/
theorem c9_manifest_roundtrip (s : MemoryStorage) (name reference : String)
    (M : List Nat) (T : String) :
    (put_manifest_handler memoryStorage s name reference [("content-type", T)] M).2.1 = 201
    ∧ get_manifest_handler memoryStorage
        (put_manifest_handler memoryStorage s name reference [("content-type", T)] M).1
        name reference = (200, T, M)
    ∧ check_manifest_handler memoryStorage
        (put_manifest_handler memoryStorage s name reference [("content-type", T)] M).1
        name reference = (200, T, sha256Digest M) := by
  have hct : (headerGet [("content-type", T)] "content-type").getD defaultManifestType = T := by
    simp [headerGet]
  have hput : (put_manifest_handler memoryStorage s name reference [("content-type", T)] M).1.manifests
      = listInsert
          (listInsert s.manifests (strip_leading_slash name ++ ":" ++ reference) ⟨M, T⟩)
          (strip_leading_slash name ++ ":" ++ sha256Digest M) ⟨M, T⟩ := by
    simp [put_manifest_handler, memoryStorage, MemoryStorage.store_manifest, hct]
  have hlook : listLookup
      (put_manifest_handler memoryStorage s name reference [("content-type", T)] M).1.manifests
      (strip_leading_slash name ++ ":" ++ reference) = some ⟨M, T⟩ := by
    rw [hput]
    by_cases hk : (strip_leading_slash name ++ ":" ++ reference)
        = (strip_leading_slash name ++ ":" ++ sha256Digest M)
    · rw [hk, listLookup_listInsert_self]
    · rw [listLookup_listInsert_ne _ _ _ _ hk, listLookup_listInsert_self]
  have hg : memoryStorage.get_manifest
      (put_manifest_handler memoryStorage s name reference [("content-type", T)] M).1
      (strip_leading_slash name ++ ":" ++ reference) = .ok (some ⟨M, T⟩) := by
    simp only [show memoryStorage.get_manifest = MemoryStorage.get_manifest from rfl,
      MemoryStorage.get_manifest]
    rw [hlook]
  refine ⟨?_, ?_, ?_⟩
  · simp [put_manifest_handler, memoryStorage, MemoryStorage.store_manifest]
  · simp [get_manifest_handler, hg]
  · simp [check_manifest_handler, hg]

/-- Folding upload_chunk over a list of chunk bodies on the memory backend
appends all their bytes, in order, to the session's buffer, and leaves
the blob and manifest maps untouched. -/
theorem upload_chunk_fold (name u : String) (chunks : List (List Nat)) :
    ∀ (st : MemoryStorage) (acc : List Nat), listLookup st.uploads u = some acc →
      listLookup (chunks.foldl
          (fun t c => (upload_chunk_handler memoryStorage t name u c).1) st).uploads u
        = some (acc ++ chunks.flatten)
      ∧ (chunks.foldl (fun t c => (upload_chunk_handler memoryStorage t name u c).1) st).blobs
        = st.blobs
      ∧ (chunks.foldl (fun t c => (upload_chunk_handler memoryStorage t name u c).1) st).manifests
        = st.manifests := by
  induction chunks with
  | nil =>
    intro st acc h
    refine ⟨?_, rfl, rfl⟩
    simpa using h
  | cons c cs ih =>
    intro st acc h
    have hstep : (upload_chunk_handler memoryStorage st name u c).1
        = { st with uploads := listInsert st.uploads u (acc ++ c) } := by
      simp [upload_chunk_handler, memoryStorage, MemoryStorage.append_upload, h]
    rw [List.foldl_cons, hstep]
    obtain ⟨h1, h2, h3⟩ := ih { st with uploads := listInsert st.uploads u (acc ++ c) }
      (acc ++ c) (listLookup_listInsert_self st.uploads u (acc ++ c))
    refine ⟨?_, h2, h3⟩
    rw [h1]
    simp [List.flatten_cons, List.append_assoc]

/-- Claim C1: a POST start creating session u, one or more PATCH chunk
calls with bodies c1..c(n-1) in order, then a PUT finish with trailing
body cn, stores a blob whose bytes are exactly the concatenation
c1‖…‖cn (under the computed SHA-256 digest, no digest being supplied),
answers created (201), and removes session u. -/
theorem c1_upload_lifecycle (s : MemoryStorage) (name u : String)
    (chunks : List (List Nat)) (final : List Nat) (_hne : chunks ≠ []) :
    (finish_upload_handler memoryStorage
        (chunks.foldl (fun t c => (upload_chunk_handler memoryStorage t name u c).1)
          (start_upload_handler memoryStorage s name u).1)
        name u none [] final).2.1 = 201
    ∧ MemoryStorage.get_blob
        (finish_upload_handler memoryStorage
          (chunks.foldl (fun t c => (upload_chunk_handler memoryStorage t name u c).1)
            (start_upload_handler memoryStorage s name u).1)
          name u none [] final).1
        (sha256Digest (chunks.flatten ++ final))
      = .ok (some (chunks.flatten ++ final))
    ∧ listLookup (finish_upload_handler memoryStorage
          (chunks.foldl (fun t c => (upload_chunk_handler memoryStorage t name u c).1)
            (start_upload_handler memoryStorage s name u).1)
          name u none [] final).1.uploads u = none := by
  have hstart : (start_upload_handler memoryStorage s name u).1
      = { s with uploads := listInsert s.uploads u [] } := by
    simp [start_upload_handler, memoryStorage, MemoryStorage.create_upload]
  obtain ⟨h1, h2, h3⟩ := upload_chunk_fold name u chunks
    (start_upload_handler memoryStorage s name u).1 []
    (by rw [hstart]; exact listLookup_listInsert_self s.uploads u [])
  set s2 := chunks.foldl (fun t c => (upload_chunk_handler memoryStorage t name u c).1)
      (start_upload_handler memoryStorage s name u).1 with hs2
  have h1' : listLookup s2.uploads u = some chunks.flatten := by simpa using h1
  have hD : resolveDigest none [] (chunks.flatten ++ final)
      = sha256Digest (chunks.flatten ++ final) := by
    simp [resolveDigest, headerGet, Option.orElse]
  have hred : finish_upload_handler memoryStorage s2 name u none [] final =
      ({ s2 with uploads := listRemove s2.uploads u,
                 blobs := listInsert s2.blobs (sha256Digest (chunks.flatten ++ final))
                            (chunks.flatten ++ final) },
       201, "/v2/" ++ strip_leading_slash name ++ "/blobs/"
              ++ sha256Digest (chunks.flatten ++ final),
       sha256Digest (chunks.flatten ++ final)) := by
    simp [finish_upload_handler, memoryStorage, MemoryStorage.finish_upload,
      MemoryStorage.store_blob, h1', hD]
  refine ⟨by rw [hred], ?_, ?_⟩
  · rw [hred]
    simp [MemoryStorage.get_blob, listLookup_listInsert_self]
  · rw [hred]
    simpa using listLookup_listRemove_self s2.uploads u

/-- Witness for C1 with chunks [1,2] and [3] and trailing body [4] on the
empty storage. -/
theorem c1_upload_lifecycle_witness :
    ([[1, 2], [3]] : List (List Nat)) ≠ []
    ∧ ((finish_upload_handler memoryStorage
          (([[1, 2], [3]] : List (List Nat)).foldl
            (fun t c => (upload_chunk_handler memoryStorage t "r" "u1" c).1)
            (start_upload_handler memoryStorage MemoryStorage.new "r" "u1").1)
          "r" "u1" none [] [4]).2.1 = 201
      ∧ MemoryStorage.get_blob
          (finish_upload_handler memoryStorage
            (([[1, 2], [3]] : List (List Nat)).foldl
              (fun t c => (upload_chunk_handler memoryStorage t "r" "u1" c).1)
              (start_upload_handler memoryStorage MemoryStorage.new "r" "u1").1)
            "r" "u1" none [] [4]).1
          (sha256Digest (([[1, 2], [3]] : List (List Nat)).flatten ++ [4]))
        = .ok (some (([[1, 2], [3]] : List (List Nat)).flatten ++ [4]))
      ∧ listLookup (finish_upload_handler memoryStorage
            (([[1, 2], [3]] : List (List Nat)).foldl
              (fun t c => (upload_chunk_handler memoryStorage t "r" "u1" c).1)
              (start_upload_handler memoryStorage MemoryStorage.new "r" "u1").1)
            "r" "u1" none [] [4]).1.uploads "u1" = none) :=
  ⟨by decide, c1_upload_lifecycle MemoryStorage.new "r" "u1" [[1, 2], [3]] [4] (by decide)⟩
